import Mathlib

/-!
Verification of the retrieval-and-answer orchestration pipeline of the
chatbot-itsupport backend.

The definitions below are a shallow embedding of the Python source:

* `app/api/routes/query.py` : `build_metadata_filter`
* `app/services/langgraph_rag.py` : `_is_pure_greeting`, `_detect_user_role`,
  `_check_authorization_restrictions`, `_validate_similarity_threshold`,
  the `retrieve` tool body and the `generate` graph node
* `app/services/hybrid_search.py` : `HybridSearchService.__init__`,
  `_tokenize`, `_compute_bm25_scores`, `_normalize_scores`,
  `rerank_with_keywords`, `boost_by_metadata`
* `app/services/prompts.py` : the fixed greeting / no-knowledge responses
* `app/core/config.py` : the similarity-threshold default

Machine floats of the source are modelled as rationals; `math.log` is kept
abstract as an explicit function parameter (it is never evaluated on the
concrete inputs used in the theorems below).  The generative model is kept
abstract as a `String → String` parameter.
-/

/-! ## Roles and visibility filters (`query.py`, `langgraph_rag.py`) -/

/-- User roles from `app/db/models.py` (`UserRole`). -/
inductive UserRole
  | superAdmin
  | admin
  | lecturer
  | student
deriving DecidableEq, Repr

/-- A value in a Pinecone metadata filter: either a plain string
(equality condition) or a set-membership condition, modelling the
dict shape with key "$in" that the source builds. -/
inductive FilterValue
  | str (s : String)
  | inList (vals : List String)
deriving DecidableEq, Repr

/-- A metadata filter is a dict from field names to filter values. -/
abbrev MetadataFilter := List (String × FilterValue)

/-- Embeds `build_metadata_filter(user)` from `app/api/routes/query.py`
(lines 48-75).  `none` caller = anonymous (no authenticated user);
ADMIN gets no filter; LECTURER gets public+internal; every other
role (STUDENT, and also SUPER_ADMIN, which the source's else-branch
catches) gets public only. -/
def buildMetadataFilter : Option UserRole → Option MetadataFilter
  | none => some [("sensitivity", FilterValue.str "public")]
  | some UserRole.admin => none
  | some UserRole.lecturer => some [("sensitivity", FilterValue.inList ["public", "internal"])]
  | some _ => some [("sensitivity", FilterValue.str "public")]

/-- Look up a key in a string-valued metadata dict. -/
def lookupMeta (k : String) (m : List (String × String)) : Option String :=
  (m.find? (fun kv => kv.1 == k)).map (fun kv => kv.2)

/-- Look up a key in a metadata filter. -/
def filterLookup (k : String) (f : MetadataFilter) : Option FilterValue :=
  (f.find? (fun kv => kv.1 == k)).map (fun kv => kv.2)

/-- Pinecone condition semantics: an equality condition admits exactly the
matching field value, an `$in` condition admits any listed value, and a
document missing the field is not admitted. -/
def FilterValue.admitsValue : FilterValue → Option String → Bool
  | FilterValue.str s, some v => v == s
  | FilterValue.inList vs, some v => vs.contains v
  | _, none => false

/-- Whether a document (with the given metadata dict) is admitted by a
visibility filter; a `none` filter admits everything. -/
def docMatchesFilter (metadata : List (String × String)) : Option MetadataFilter → Bool
  | none => true
  | some conds => conds.all (fun kv => kv.2.admitsValue (lookupMeta kv.1 metadata))

/-- Embeds `_detect_user_role` from `app/services/langgraph_rag.py`
(lines 140-164): `None` filter means admin; a filter without a
"sensitivity" field means anonymous; sensitivity "public" means student;
a `$in` dict means lecturer; anything else falls back to anonymous. -/
def detectUserRole : Option MetadataFilter → String
  | none => "admin"
  | some f =>
    match filterLookup "sensitivity" f with
    | none => "anonymous"
    | some (FilterValue.str s) => if s == "public" then "student" else "anonymous"
    | some (FilterValue.inList _) => "lecturer"

/-- The four caller roles named by the spec's role-monotonicity property. -/
inductive ClaimRole
  | anonymous
  | student
  | lecturer
  | admin
deriving DecidableEq, Repr

/-- The caller passed to `build_metadata_filter` for each claim role
(anonymous callers have no user object). -/
def ClaimRole.toCaller : ClaimRole → Option UserRole
  | ClaimRole.anonymous => none
  | ClaimRole.student => some UserRole.student
  | ClaimRole.lecturer => some UserRole.lecturer
  | ClaimRole.admin => some UserRole.admin

/-- Privilege ranking stated by the spec: ANONYMOUS/STUDENT below LECTURER
below ADMIN. -/
def ClaimRole.privilege : ClaimRole → Nat
  | ClaimRole.anonymous => 0
  | ClaimRole.student => 0
  | ClaimRole.lecturer => 1
  | ClaimRole.admin => 2

/-- The string name of each claim role, as `_detect_user_role` spells it. -/
def ClaimRole.name : ClaimRole → String
  | ClaimRole.anonymous => "anonymous"
  | ClaimRole.student => "student"
  | ClaimRole.lecturer => "lecturer"
  | ClaimRole.admin => "admin"

/-! ## Rejection messages and the authorization probe
(`_check_authorization_restrictions`, lines 166-233) -/

/-- The role-specific rejection message and required role, mirroring the
if/elif chain of `_check_authorization_restrictions`. -/
def roleRejection (role : String) : String × String :=
  if role == "student" then
    ("Informasi ini khusus Dosen. Hubungi dosen Anda jika perlu akses.", "lecturer")
  else if role == "lecturer" then
    ("Informasi ini khusus Administrator sistem.", "admin")
  else if role == "anonymous" then
    ("Akses ditolak. Login diperlukan untuk mengakses informasi ini.", "authenticated")
  else
    ("Akses ditolak.", "unknown")

/-- The data recorded when access is denied: the rejection message and the
`user_role` / `required_role` metadata fields. -/
structure AuthRejection where
  message : String
  userRole : String
  requiredRole : String
deriving DecidableEq, Repr

/-- Embeds `_check_authorization_restrictions(query, retrieved_docs)`.
Returns `none` when documents were retrieved or no filter is active.
Otherwise the unrestricted probe (`vectorstore.search(query, k=1,
metadata_filter=None)`) is issued; its result is the `probe` argument,
with `Except.error` standing for a raised exception, which the source
catches and logs, falling through to `none`. -/
def checkAuthorizationRestrictions :
    Option MetadataFilter → List String → Except String (List String) → Option AuthRejection
  | none, _, _ => none
  | some _, _ :: _, _ => none
  | some f, [], probe =>
    match probe with
    | Except.error _ => none
    | Except.ok [] => none
    | Except.ok (_ :: _) =>
      let role := detectUserRole (some f)
      let mr := roleRejection role
      some { message := mr.1, userRole := role, requiredRole := mr.2 }

/-- The tool content returned by `retrieve` when the structural search
found nothing (line 437 of `langgraph_rag.py`). -/
def noRelevantDocsContent : String := "No relevant documents found in knowledge base."

/-- Embeds the empty-result classification of the `retrieve` tool body
(lines 421-437): an auth rejection yields the role message with
`rejection_reason = "insufficient_permissions"`, otherwise the fixed
no-documents content with `rejection_reason = "no_documents_found"`.
The pair is (tool content, rejection_reason). -/
def classifyEmptyRetrieve (filter : Option MetadataFilter)
    (probe : Except String (List String)) : String × String :=
  match checkAuthorizationRestrictions filter [] probe with
  | some rej => (rej.message, "insufficient_permissions")
  | none => (noRelevantDocsContent, "no_documents_found")

/-! ## Similarity-threshold gate (`_validate_similarity_threshold`,
lines 277-305, and `config.py` line 64) -/

/-- Default of `settings.rag_similarity_threshold` (0.6). -/
def ragSimilarityThreshold : Rat := 3/5

/-- Embeds `_validate_similarity_threshold(scores)`: empty score list
passes; otherwise the rejection carries (max score, threshold) exactly
when the maximum is below the threshold. -/
def validateSimilarityThreshold (threshold : Rat) (scores : List Rat) : Option (Rat × Rat) :=
  match scores with
  | [] => none
  | s :: rest =>
    let m := rest.foldl max s
    if m < threshold then some (m, threshold) else none

/-- The low-similarity tool content (lines 299-303), parameterized by the
decimal renderings of the max score (Python `:.2f`) and the threshold. -/
def lowSimilarityMessage (maxStr thrStr : String) : String :=
  "No sufficiently relevant documents found. Maximum similarity score (" ++
    maxStr ++ ") is below threshold (" ++ thrStr ++ ")."

/-! ## The generate node (`langgraph_rag.py` lines 542-601) -/

/-- Boolean test that `needle` is a prefix of `hay`. -/
def charsPrefixOf : List Char → List Char → Bool
  | [], _ => true
  | _ :: _, [] => false
  | a :: as, b :: bs => a == b && charsPrefixOf as bs

/-- Boolean test that `needle` occurs contiguously inside `hay`. -/
def charsInfixOf (needle : List Char) : List Char → Bool
  | [] => needle.isEmpty
  | h :: t => charsPrefixOf needle (h :: t) || charsInfixOf needle t

/-- Python's `needle in hay` substring test. -/
def strContainsSub (needle hay : String) : Bool :=
  charsInfixOf needle.data hay.data

/-- The sentinel substring that the generate node looks for in the tool
content (line 573). -/
def noDocsNeedle : String := "No relevant documents found"

/-- Fixed no-knowledge response, `get_no_documents_response()` in
`app/services/prompts.py`. -/
def noDocumentsResponse : String :=
  "Maaf, saya tidak memiliki informasi tentang itu dalam knowledge base saya. Saya hanya bisa menjawab pertanyaan terkait IT support yang ada di sistem kami. \n\nJika Anda memerlukan bantuan lebih lanjut, silakan hubungi IT support resmi."

/-- Result of the generate node: the emitted answer and whether the
generative model was invoked for it. -/
structure GenerateResult where
  answer : String
  modelInvoked : Bool
deriving DecidableEq, Repr

/-- Embeds the decision logic of the `generate` node (lines 559-601):
join the recent tool-message contents with blank lines; if the joined
content is empty or contains the sentinel `"No relevant documents found"`,
emit the fixed no-knowledge response without a model call; otherwise
invoke the model on a prompt built from that content.  The abstract
`model` parameter maps the grounding context to the model's answer. -/
def generateNode (model : String → String) (toolContents : List String) : GenerateResult :=
  let docsContent := String.intercalate "\n\n" toolContents
  if docsContent == "" || strContainsSub noDocsNeedle docsContent then
    { answer := noDocumentsResponse, modelInvoked := false }
  else
    { answer := model docsContent, modelInvoked := true }

/-- A concrete stand-in for the generative model, used in counterexamples. -/
def demoModel : String → String := fun s => "[LLM] " ++ s

/-! ## Character-level string helpers

Python's `str.lower`, `str.strip` and `str.split()` are embedded as
structurally recursive functions on the character list so that every
theorem below can be checked by evaluation. -/

/-- Python's `str.lower` (character-wise lowercasing). -/
def lowerStr (s : String) : String := String.mk (s.data.map Char.toLower)

/-- Python's `str.strip()`: drop leading and trailing whitespace. -/
def trimStr (s : String) : String :=
  String.mk (((s.data.dropWhile Char.isWhitespace).reverse.dropWhile Char.isWhitespace).reverse)

/-! ## Greeting detection (`_is_pure_greeting`, lines 78-138) -/

/-- Consume a literal character sequence from the front of a string,
returning the rest on success. -/
def consumeLit : List Char → List Char → Option (List Char)
  | [], s => some s
  | _ :: _, [] => none
  | a :: as, b :: bs => if a == b then consumeLit as bs else none

/-- Greedily consume leading whitespace. -/
def consumeWsStar : List Char → List Char
  | [] => []
  | c :: cs => if c.isWhitespace then consumeWsStar cs else c :: cs

/-- Consume one-or-more whitespace characters, as a regex `\s+` does when
followed by a non-whitespace literal. -/
def consumeWsPlus (s : List Char) : Option (List Char) :=
  match s with
  | [] => none
  | c :: cs => if c.isWhitespace then some (consumeWsStar cs) else none

/-- Match a sequence of literal words separated by `\s+`, returning the
unconsumed rest. -/
def matchWordSeq : List String → List Char → Option (List Char)
  | [], s => some s
  | [w], s => consumeLit w.data s
  | w :: ws, s =>
    match consumeLit w.data s with
    | none => none
    | some r =>
      match consumeWsPlus r with
      | none => none
      | some r2 => matchWordSeq ws r2

/-- The character class of the trailing part of the standalone patterns. -/
def trailingOk (s : List Char) : Bool :=
  s.all (fun c => c.isWhitespace || c == ',' || c == '!' || c == '.' || c == '?')

/-- Alternatives of the five standalone-greeting regexes of step 1 of
the source, each spelled out as its word sequence; the regex alternation
is the existential over this list. -/
def obviousGreetingAlts : List (List String) :=
  [["hai"], ["halo"], ["hello"], ["hi"], ["hey"], ["hallo"], ["haloo"],
   ["terima", "kasih"], ["thank"], ["thanks"], ["thx"], ["thank", "you"],
   ["oke"], ["ok"], ["okay"], ["baik"], ["siap"], ["yes"], ["ya"],
   ["selamat", "pagi"], ["selamat", "siang"], ["selamat", "sore"],
   ["selamat", "malam"], ["selamat", "datang"],
   ["maaf"], ["sorry"], ["excuse", "me"], ["permisi"], ["pardon"]]

/-- Matching a standalone greeting: one of the word-sequence alternatives
followed only by characters of the trailing class (anchored regexes). -/
def matchStandalone (alts : List (List String)) (s : List Char) : Bool :=
  alts.any (fun ws =>
    match matchWordSeq ws s with
    | some r => trailingOk r
    | none => false)

/-- Head words of the greeting-with-context pattern. -/
def greetingHeads : List String :=
  ["hai", "halo", "hello", "hi", "hey", "haloo", "hallo"]

/-- The apostrophe character, kept out of string literals. -/
def apostropheStr : String := String.mk [Char.ofNat 39]

/-- Contextual phrases of the first greeting-with-context pattern. -/
def contextPhrases1 : List (List String) :=
  [["apa", "kabar"], ["bagaimana", "kabar"], ["how", "are", "you"],
   ["what" ++ apostropheStr ++ "s", "up"]]

/-- Phrases of the second greeting-with-context pattern. -/
def contextPhrases2 : List (List String) :=
  [["apa", "kabar"], ["how", "are", "you"], ["bagaimana", "kabar"]]

/-- Phrases of the third greeting-with-context pattern. -/
def contextPhrases3 : List (List String) :=
  [["nice", "to", "meet", "you"], ["senang", "bertemu"]]

/-- Matching the first contextual pattern: a head word, then `\s*,?\s*`,
then a contextual phrase, with arbitrary text after (unanchored search). -/
def matchContextOne (s : List Char) : Bool :=
  greetingHeads.any (fun h =>
    match consumeLit h.data s with
    | none => false
    | some r1 =>
      let r2 := consumeWsStar r1
      let r3 := match r2 with
        | [] => []
        | c :: t => if c == ',' then t else c :: t
      let r4 := consumeWsStar r3
      contextPhrases1.any (fun p => (matchWordSeq p r4).isSome))

/-- Step 2 of `_is_pure_greeting`: any of the three greeting-with-context
patterns matches at the start of the query. -/
def matchContext (s : List Char) : Bool :=
  matchContextOne s
    || contextPhrases2.any (fun p => (matchWordSeq p s).isSome)
    || contextPhrases3.any (fun p => (matchWordSeq p s).isSome)

/-- The fixed IT-keyword denylist of step 3, verbatim from the source. -/
def itKeywords : List String :=
  ["install", "setup", "konfigurasi", "configure", "config", "setting",
   "error", "troubleshoot", "masalah", "problem", "issue", "bug",
   "vpn", "firewall", "wifi", "network", "jaringan", "internet",
   "software", "hardware", "aplikasi", "program", "sistem", "system",
   "cara", "kenapa", "mengapa", "apa itu", "what is",
   "eap", "tls", "ssl", "certificate", "sertifikat",
   "password", "login", "akses", "access", "user", "admin",
   "download", "upload", "file", "folder", "direktori",
   "server", "client", "database", "backup", "restore",
   "update", "upgrade", "patch", "security", "keamanan"]

/-- Whether the lowered query contains any IT keyword as a substring. -/
def containsITKeyword (q : String) : Bool :=
  itKeywords.any (fun kw => strContainsSub kw q)

/-- Embeds `_is_pure_greeting(query)`: lower and strip the query, try the
standalone patterns (step 1), then the contextual patterns (step 2), and
only if neither matched consult the IT-keyword denylist (step 3); the
default is not-a-greeting. -/
def isPureGreeting (query : String) : Bool :=
  let q := trimStr (lowerStr query)
  if matchStandalone obviousGreetingAlts q.data then true
  else if matchContext q.data then true
  else if containsITKeyword q then false
  else false

/-! ## Documents and tokenization -/

/-- Collects maximal non-whitespace runs; the accumulator holds the
current run reversed. -/
def splitWordsAux : List Char → List Char → List String
  | [], acc => if acc.isEmpty then [] else [String.mk acc.reverse]
  | c :: cs, acc =>
    if c.isWhitespace then
      if acc.isEmpty then splitWordsAux cs [] else String.mk acc.reverse :: splitWordsAux cs []
    else splitWordsAux cs (c :: acc)

/-- Python's `str.split()`: the maximal whitespace-separated words. -/
def pySplit (s : String) : List String := splitWordsAux s.data []

/-- Embeds `HybridSearchService._tokenize`: lowercase then whitespace split. -/
def tokenize (text : String) : List String := pySplit (lowerStr text)

/-- A summary document as the pipeline sees it: its page content and the
metadata fields the ranking reads and writes.  `similarity` is the
`similarity_score` metadata entry (the source defaults a missing score
to 0.0, so a plain rational field is faithful). -/
structure SDoc where
  name : String
  pageContent : String
  similarity : Rat
  faqQuestions : List String := []
  keywords : List String := []
  category : String := ""
  platform : String := ""
  faqBoosted : Bool := false
  hybridApplied : Bool := false
deriving DecidableEq, Repr

/-! ## FAQ-match boost (`retrieve` tool body, lines 358-379) -/

/-- The word-overlap ratio of the FAQ boost: distinct shared words over
`max(len(query_words), 1)`, with both sides lowered and whitespace-split
into sets. -/
def faqMatchRatio (query faq : String) : Rat :=
  let queryWords := (pySplit (lowerStr query)).dedup
  let faqWords := (pySplit (lowerStr faq)).dedup
  ((queryWords.filter (fun w => faqWords.contains w)).length : Rat) /
    ((max queryWords.length 1 : Nat) : Rat)

/-- The inner FAQ loop: the first question with ratio above 0.6 boosts the
score by 0.15 (capped at 1.0) and stops; otherwise the score is kept. -/
def faqBoostScore (query : String) (score : Rat) : List String → Rat × Bool
  | [] => (score, false)
  | f :: rest =>
    if faqMatchRatio query f > 3/5 then (min (score + 3/20) 1, true)
    else faqBoostScore query score rest

/-- Applies the FAQ boost to one document: on a boost the similarity is
updated and `faq_boosted` set; otherwise the document is unchanged. -/
def faqBoostedDoc (query : String) (d : SDoc) : SDoc :=
  let sb := faqBoostScore query d.similarity d.faqQuestions
  if sb.2 then { d with similarity := sb.1, faqBoosted := true } else d

/-! ## Stable descending sort, as Python's `sorted(..., reverse=True)` -/

/-- Insert an element before the first entry whose key it meets or exceeds;
processing earlier elements last keeps equal-key entries in input order. -/
def insertDescBy {α : Type} (key : α → Rat) (x : α) : List α → List α
  | [] => [x]
  | y :: ys => if key x ≥ key y then x :: y :: ys else y :: insertDescBy key x ys

/-- Stable insertion sort by descending key. -/
def sortDescBy {α : Type} (key : α → Rat) : List α → List α
  | [] => []
  | x :: xs => insertDescBy key x (sortDescBy key xs)

/-! ## BM25, normalization and fusion (`hybrid_search.py`) -/

/-- Embeds `_compute_bm25_scores(query, documents)`.  `logF` stands for
`math.log`; on every concrete input used below no query term occurs in
any document, so `logF` is never applied. -/
def computeBM25Scores (k1 b : Rat) (logF : Rat → Rat) (query : String)
    (documents : List SDoc) : List Rat :=
  match documents with
  | [] => []
  | _ =>
    let queryTokens := tokenize query
    let docTokensList := documents.map (fun d => tokenize d.pageContent)
    let avgdl : Rat := ((docTokensList.map (fun t => t.length)).sum : Nat) /
      ((docTokensList.length : Nat) : Rat)
    let n : Rat := ((documents.length : Nat) : Rat)
    let df := fun t => (((docTokensList.filter (fun dt => dt.contains t)).length : Nat) : Rat)
    let idf := fun t => logF ((n - df t + 1/2) / (df t + 1/2) + 1)
    docTokensList.map (fun dt =>
      let dl : Rat := ((dt.length : Nat) : Rat)
      queryTokens.foldl (fun acc t =>
        if dt.contains t then
          let freq : Rat := ((dt.count t : Nat) : Rat)
          acc + idf t * (freq * (k1 + 1)) / (freq + k1 * (1 - b + b * dl / avgdl))
        else acc) 0)

/-- Embeds `_normalize_scores`: min-max scaling to [0,1], all 1.0 when the
scores are constant. -/
def normalizeScores (scores : List Rat) : List Rat :=
  match scores with
  | [] => []
  | s :: rest =>
    let minS := rest.foldl min s
    let maxS := rest.foldl max s
    if maxS = minS then scores.map (fun _ => 1)
    else scores.map (fun x => (x - minS) / (maxS - minS))

/-- The hybrid-search service state: the stored fusion weights and the
BM25 parameters. -/
structure HybridSearchService where
  vectorWeight : Rat
  bm25Weight : Rat
  k1 : Rat
  b : Rat
deriving DecidableEq, Repr

/-- Embeds `HybridSearchService.__init__` (lines 26-54): the supplied
weights are renormalized (with a logged warning) only when their total
differs from 1.0 by more than the 0.001 tolerance. -/
def mkHybridSearchService (vectorWeight bm25Weight k1 b : Rat) : HybridSearchService :=
  let total := vectorWeight + bm25Weight
  if 1/1000 < |total - 1| then
    { vectorWeight := vectorWeight / total, bm25Weight := bm25Weight / total, k1 := k1, b := b }
  else
    { vectorWeight := vectorWeight, bm25Weight := bm25Weight, k1 := k1, b := b }

/-- The service with the source's default arguments (0.7, 0.3, 1.5, 0.75). -/
def defaultHybridService : HybridSearchService :=
  mkHybridSearchService (7/10) (3/10) (3/2) (3/4)

/-- Embeds `rerank_with_keywords(query, documents, vector_scores)`:
normalize both series, fuse with the stored weights, and stably sort
documents with their hybrid scores in descending order.  (The source
carries the raw vector/BM25 scores through the sort as well, but only
logs them.) -/
def rerankWithKeywords (svc : HybridSearchService) (logF : Rat → Rat) (query : String)
    (documents : List SDoc) (vectorScores : List Rat) : List SDoc × List Rat :=
  match documents with
  | [] => ([], vectorScores)
  | _ =>
    let bm25Scores := computeBM25Scores svc.k1 svc.b logF query documents
    let normalizedVector := normalizeScores vectorScores
    let normalizedBM25 := normalizeScores bm25Scores
    let hybridScores := (normalizedVector.zip normalizedBM25).map
      (fun p => svc.vectorWeight * p.1 + svc.bm25Weight * p.2)
    let rankedPairs := sortDescBy (fun p => p.2) (documents.zip hybridScores)
    (rankedPairs.map (fun p => p.1), rankedPairs.map (fun p => p.2))

/-- Embeds `boost_by_metadata(query, documents, scores)` with the default
boost configuration: additive boosts for keyword, category and platform
matches, each capped at 1.0, followed by a stable descending re-sort. -/
def boostByMetadata (query : String) (documents : List SDoc) (scores : List Rat) :
    List SDoc × List Rat :=
  let queryLower := lowerStr query
  let boosted := (documents.zip scores).map (fun p =>
    let d := p.1
    let keywordMatches :=
      (d.keywords.filter (fun kw => strContainsSub (lowerStr kw) queryLower)).length
    let s1 := if keywordMatches > 0
      then min (p.2 + (3/20) * ((keywordMatches : Nat) : Rat)) 1 else p.2
    let cat := lowerStr d.category
    let s2 := if cat ≠ "" && strContainsSub cat queryLower then min (s1 + 1/10) 1 else s1
    let plat := lowerStr d.platform
    let s3 := if plat ≠ "" && strContainsSub plat queryLower then min (s2 + 1/20) 1 else s2
    (d, s3))
  let sortedPairs := sortDescBy (fun p => p.2) boosted
  (sortedPairs.map (fun p => p.1), sortedPairs.map (fun p => p.2))

/-! ## The ranking part of the `retrieve` tool (lines 358-419) -/

/-- The hybrid-search block of the `retrieve` tool (lines 390-419): rerank
the summary documents, apply the metadata boost, write the final scores
back into their metadata, and truncate — without reordering — the
retrieved (original-content) list to the summary list's length. -/
def hybridStage (hs : HybridSearchService) (logF : Rat → Rat) (query : String)
    (retrieved : List String) (summaries : List SDoc) : List String × List SDoc :=
  match summaries with
  | [] => (retrieved, summaries)
  | _ =>
    let vectorScores := summaries.map (fun d => d.similarity)
    let rr := rerankWithKeywords hs logF query summaries vectorScores
    let bb := boostByMetadata query rr.1 rr.2
    let finalDocs := (bb.1.zip bb.2).map
      (fun p => { p.1 with similarity := p.2, hybridApplied := true })
    (retrieved.take finalDocs.length, finalDocs)

/-- Embeds the post-search ranking of the `retrieve` tool (lines 358-419):
FAQ boost on the summary documents, a stable re-sort of the
(retrieved, summary) pairs by boosted similarity, then the hybrid block
when hybrid search is enabled. -/
def retrieveRankingStage (svc : Option HybridSearchService) (logF : Rat → Rat)
    (query : String) (retrievedDocs : List String) (summaryDocs : List SDoc) :
    List String × List SDoc :=
  let boostedSummaries := summaryDocs.map (faqBoostedDoc query)
  let boostedPairs := sortDescBy (fun p => p.2.similarity) (retrievedDocs.zip boostedSummaries)
  let retrieved1 := boostedPairs.map (fun p => p.1)
  let summary1 := boostedPairs.map (fun p => p.2)
  match svc with
  | some hs => hybridStage hs logF query retrieved1 summary1
  | none => (retrieved1, summary1)

/-! ## Concrete demonstration inputs used by the theorems -/

/-- Demo summary document A: highest vector similarity. -/
def dA : SDoc := { name := "A", pageContent := "alpha alpha", similarity := 1 }

/-- Demo summary document B: middle vector similarity. -/
def dB : SDoc := { name := "B", pageContent := "beta beta", similarity := 1/10 }

/-- Demo summary document C: lowest vector similarity, but carrying a
keyword that matches the demo query. -/
def dC : SDoc := { name := "C", pageContent := "gamma gamma", similarity := 0, keywords := ["printer"] }

/-- The original-content (artifact) documents paired index-wise with the
demo summaries, as the vector store returns them. -/
def retrieveDemoOrig : List String := ["orig-A", "orig-B", "orig-C"]

/-- The demo summary list. -/
def retrieveDemoSummaries : List SDoc := [dA, dB, dC]

/-- A document carrying one FAQ question, used for the FAQ-boost witness. -/
def faqDemoDoc : SDoc :=
  { name := "F", pageContent := "vpn guide", similarity := 9/10,
    faqQuestions := ["bagaimana install vpn di windows"] }

/-! # Theorems -/

/-! ## Helper lemmas -/

/-- A fold whose step is guarded by a membership test leaves the
accumulator unchanged when no element passes the test. -/
lemma foldl_if_not_contains (dt : List String) (X : String → Rat → Rat) :
    ∀ (ts : List String) (acc : Rat), (∀ t ∈ ts, dt.contains t = false) →
      ts.foldl (fun acc t => if dt.contains t then X t acc else acc) acc = acc := by
  intro ts
  induction ts with
  | nil => intro acc _; rfl
  | cons t ts ih =>
    intro acc h
    have ht : dt.contains t = false := h t (List.mem_cons_self t ts)
    simp only [List.foldl_cons, ht, Bool.false_eq_true, if_false]
    exact ih acc (fun u hu => h u (List.mem_cons_of_mem t hu))

/-- BM25 gives score 0 to every document when no query token occurs in any
document; in particular `math.log` is never evaluated. -/
lemma bm25_all_zero (k1 b : Rat) (logF : Rat → Rat) (q : String) (docs : List SDoc)
    (h : ∀ d ∈ docs, ∀ t ∈ tokenize q, (tokenize d.pageContent).contains t = false) :
    computeBM25Scores k1 b logF q docs = docs.map (fun _ => 0) := by
  match docs with
  | [] => rfl
  | d0 :: rest =>
    simp only [computeBM25Scores, List.map_map]
    apply List.map_congr_left
    intro d hd
    exact foldl_if_not_contains _ _ _ 0 (fun t ht => h d hd t ht)

/-- The default weights (0.7, 0.3) already sum to 1, so the service stores
them unchanged. -/
lemma default_svc_eq : defaultHybridService =
    { vectorWeight := 7/10, bm25Weight := 3/10, k1 := 3/2, b := 3/4 } := by
  unfold defaultHybridService mkHybridSearchService
  norm_num

/-- Min-max normalization of the demo vector scores. -/
lemma norm_vec_demo : normalizeScores [1, 1/10, 0] = [1, 1/10, 0] := by
  simp only [normalizeScores, List.foldl, List.map]
  norm_num [min_def, max_def]

/-- Constant score lists normalize to all ones. -/
lemma norm_zero_demo : normalizeScores [0, 0, 0] = [1, 1, 1] := by
  simp only [normalizeScores, List.foldl, List.map]
  norm_num [min_def, max_def]

/-- The demo query token occurs in no demo document, so all BM25 scores
are zero whatever `math.log` is. -/
lemma bm25_demo (logF : Rat → Rat) :
    computeBM25Scores (3/2) (3/4) logF "printer" [dA, dB, dC] = [0, 0, 0] := by
  rw [bm25_all_zero]
  · rfl
  · decide

/-- Hybrid rerank of the demo documents: with all BM25 scores equal the
fused order follows the vector order, so nothing moves. -/
lemma rerank_demo (logF : Rat → Rat) :
    rerankWithKeywords { vectorWeight := 7/10, bm25Weight := 3/10, k1 := 3/2, b := 3/4 }
      logF "printer" [dA, dB, dC] [1, 1/10, 0] = ([dA, dB, dC], [1, 37/100, 3/10]) := by
  simp only [rerankWithKeywords, bm25_demo logF, norm_vec_demo, norm_zero_demo]
  norm_num [List.zip, List.zipWith, sortDescBy, insertDescBy, dA, dB, dC, List.map]

/-- The metadata boost lifts document C (keyword match, +0.15) above
document B, reordering the summary list. -/
lemma boost_demo : boostByMetadata "printer" [dA, dB, dC] [1, 37/100, 3/10] =
    ([dA, dC, dB], [1, 9/20, 37/100]) := by
  have hA : (dA.keywords.filter (fun kw => strContainsSub (lowerStr kw) (lowerStr "printer"))).length = 0 := rfl
  have hB : (dB.keywords.filter (fun kw => strContainsSub (lowerStr kw) (lowerStr "printer"))).length = 0 := rfl
  have hC : (dC.keywords.filter (fun kw => strContainsSub (lowerStr kw) (lowerStr "printer"))).length = 1 := rfl
  have hcatA : lowerStr dA.category = "" := rfl
  have hcatB : lowerStr dB.category = "" := rfl
  have hcatC : lowerStr dC.category = "" := rfl
  have hplatA : lowerStr dA.platform = "" := rfl
  have hplatB : lowerStr dB.platform = "" := rfl
  have hplatC : lowerStr dC.platform = "" := rfl
  simp only [boostByMetadata, List.zip, List.zipWith, List.map, hA, hB, hC,
    hcatA, hcatB, hcatC, hplatA, hplatB, hplatC]
  norm_num [sortDescBy, insertDescBy, min_def]

/-- The hybrid block on the demo input: summaries come out as A, C, B
while the artifact list keeps its order. -/
lemma hybrid_stage_demo (logF : Rat → Rat) :
    hybridStage { vectorWeight := 7/10, bm25Weight := 3/10, k1 := 3/2, b := 3/4 }
      logF "printer" retrieveDemoOrig [dA, dB, dC] =
    (["orig-A", "orig-B", "orig-C"],
     [{ dA with similarity := 1, hybridApplied := true },
      { dC with similarity := 9/20, hybridApplied := true },
      { dB with similarity := 37/100, hybridApplied := true }]) := by
  have hvec : ([dA, dB, dC].map (fun d => d.similarity)) = [1, 1/10, 0] := rfl
  simp only [hybridStage, hvec, rerank_demo logF, boost_demo]
  rfl

/-- Full evaluation of the retrieve-tool ranking on the demo input. -/
lemma retrieve_demo_eval (logF : Rat → Rat) :
    retrieveRankingStage (some defaultHybridService) logF "printer"
      retrieveDemoOrig retrieveDemoSummaries =
    (["orig-A", "orig-B", "orig-C"],
     [{ dA with similarity := 1, hybridApplied := true },
      { dC with similarity := 9/20, hybridApplied := true },
      { dB with similarity := 37/100, hybridApplied := true }]) := by
  have hfaq : retrieveDemoSummaries.map (faqBoostedDoc "printer") = [dA, dB, dC] := rfl
  have hzip : retrieveDemoOrig.zip [dA, dB, dC] =
      [("orig-A", dA), ("orig-B", dB), ("orig-C", dC)] := rfl
  have hsort : sortDescBy (fun p => (p.2 : SDoc).similarity)
      [("orig-A", dA), ("orig-B", dB), ("orig-C", dC)] =
      [("orig-A", dA), ("orig-B", dB), ("orig-C", dC)] := by
    norm_num [sortDescBy, insertDescBy, dA, dB, dC]
  have hfst : ([("orig-A", dA), ("orig-B", dB), ("orig-C", dC)].map (fun p => p.1)) =
      retrieveDemoOrig := rfl
  have hsnd : ([("orig-A", dA), ("orig-B", dB), ("orig-C", dC)].map (fun p => p.2)) =
      [dA, dB, dC] := rfl
  rw [default_svc_eq]
  simp only [retrieveRankingStage, hfaq, hzip, hsort, hfst, hsnd]
  exact hybrid_stage_demo logF

/-- A public-only visibility filter admits a subset of what the
lecturer (public+internal) filter admits. -/
lemma public_to_lecturer (md : List (String × String))
    (h : docMatchesFilter md (some [("sensitivity", FilterValue.str "public")]) = true) :
    docMatchesFilter md (some [("sensitivity", FilterValue.inList ["public", "internal"])]) = true := by
  simp only [docMatchesFilter, List.all_cons, List.all_nil, Bool.and_true] at h ⊢
  cases hl : lookupMeta "sensitivity" md with
  | none => rw [hl] at h; exact absurd h (by simp [FilterValue.admitsValue])
  | some v =>
    rw [hl] at h
    simp only [FilterValue.admitsValue, beq_iff_eq] at h
    subst h
    decide

/-! ## Claim theorems -/

/-- C3: role monotonicity — for roles ranked ANONYMOUS/STUDENT below
LECTURER below ADMIN, any document admitted by the lower role's
visibility filter is admitted by the higher role's filter, over any
document metadata. -/
theorem role_monotonicity (r1 r2 : ClaimRole) (md : List (String × String))
    (hpriv : r1.privilege < r2.privilege)
    (hvis : docMatchesFilter md (buildMetadataFilter r1.toCaller) = true) :
    docMatchesFilter md (buildMetadataFilter r2.toCaller) = true := by
  cases r1 <;> cases r2 <;>
    first
      | exact absurd hpriv (by decide)
      | exact rfl
      | exact public_to_lecturer md hvis

/-- C3 witness: a public document visible to a student is visible to an
admin. -/
theorem role_monotonicity_witness :
    docMatchesFilter [("sensitivity", "public")] (buildMetadataFilter ClaimRole.admin.toCaller) = true :=
  role_monotonicity ClaimRole.student ClaimRole.admin [("sensitivity", "public")]
    (by decide) (by decide)

/-- C6 counterexample: the claim fails for ANONYMOUS — the filter built
for an anonymous caller is the public-only filter, which
`_detect_user_role` maps to "student", not "anonymous". -/
theorem detect_role_round_trip_cex :
    detectUserRole (buildMetadataFilter ClaimRole.anonymous.toCaller) ≠ ClaimRole.anonymous.name ∧
    detectUserRole (buildMetadataFilter ClaimRole.anonymous.toCaller) = "student" := by
  decide

/-- C6 amended: the role/filter round-trip holds for STUDENT, LECTURER
and ADMIN; ANONYMOUS is excluded because its filter equals the student
filter. -/
theorem detect_role_round_trip_amended (r : ClaimRole) (h : r ≠ ClaimRole.anonymous) :
    detectUserRole (buildMetadataFilter r.toCaller) = r.name := by
  cases r with
  | anonymous => exact absurd rfl h
  | student => rfl
  | lecturer => rfl
  | admin => rfl

/-- C6 witness: the round-trip at LECTURER. -/
theorem detect_role_round_trip_witness :
    detectUserRole (buildMetadataFilter ClaimRole.lecturer.toCaller) = ClaimRole.lecturer.name :=
  detect_role_round_trip_amended ClaimRole.lecturer (by decide)

/-- C7: greeting detection — "Halo!" is a pure greeting, "Halo, gimana
cara install VPN?" is not (IT keywords), and the IT-keyword denylist is
consulted only when neither the standalone patterns (a) nor the
greeting-with-context patterns (b) matched: any query matching (a) or
(b) is classified as a greeting regardless of keywords. -/
theorem greeting_detection :
    isPureGreeting "Halo!" = true ∧
    isPureGreeting "Halo, gimana cara install VPN?" = false ∧
    ∀ q : String,
      (matchStandalone obviousGreetingAlts (trimStr (lowerStr q)).data = true ∨
        matchContext (trimStr (lowerStr q)).data = true) →
      isPureGreeting q = true := by
  refine ⟨by decide, by decide, ?_⟩
  intro q h
  by_cases hA : matchStandalone obviousGreetingAlts (trimStr (lowerStr q)).data = true
  · simp [isPureGreeting, hA]
  · have hB : matchContext (trimStr (lowerStr q)).data = true := by
      rcases h with h1 | h1
      · exact absurd h1 hA
      · exact h1
    simp [isPureGreeting, hA, hB]

/-- C7 witness: "Terima kasih" matches a standalone pattern and is
classified as a greeting. -/
theorem greeting_detection_witness : isPureGreeting "Terima kasih" = true :=
  greeting_detection.2.2 "Terima kasih" (Or.inl (by decide))

/-- C4: the threshold gate — with the configured threshold 0.6, scores
[0.9, 0.4] pass (no rejection: the Documents outcome), scores [0.5, 0.4]
are rejected as LowSimilarity carrying (max 0.5, threshold); in general
the gate rejects a nonempty score list exactly when its maximum is below
the threshold, carrying the maximum and the threshold. -/
theorem threshold_gate :
    validateSimilarityThreshold ragSimilarityThreshold [9/10, 2/5] = none ∧
    validateSimilarityThreshold ragSimilarityThreshold [1/2, 2/5] =
      some (1/2, ragSimilarityThreshold) ∧
    ∀ (th s : Rat) (ss : List Rat),
      (ss.foldl max s < th →
        validateSimilarityThreshold th (s :: ss) = some (ss.foldl max s, th)) ∧
      (th ≤ ss.foldl max s → validateSimilarityThreshold th (s :: ss) = none) := by
  refine ⟨?_, ?_, ?_⟩
  · simp only [validateSimilarityThreshold, ragSimilarityThreshold, List.foldl]
    norm_num [max_def]
  · simp only [validateSimilarityThreshold, ragSimilarityThreshold, List.foldl]
    norm_num [max_def]
  · intro th s ss
    constructor
    · intro h
      simp only [validateSimilarityThreshold]
      rw [if_pos h]
    · intro h
      simp only [validateSimilarityThreshold]
      rw [if_neg (not_lt.mpr h)]

/-- C4 witness: a single score below the threshold is rejected with that
score and the threshold. -/
theorem threshold_gate_witness :
    validateSimilarityThreshold (3/5) [1/10] = some (1/10, 3/5) :=
  (threshold_gate.2.2 (3/5) (1/10) []).1 (by norm_num [List.foldl])

/-- C5: the authorization probe — on zero filtered hits with a non-null
filter, a nonempty unrestricted probe classifies the query as
insufficient permissions with the role-table message (student requires
"lecturer"); an empty probe, and equally a probe that raises (the
exception is caught and logged), fall back to the no-documents-found
outcome. -/
theorem authorization_probe_outcomes (f : MetadataFilter) (ds : List String) (e : String) :
    (ds ≠ [] → classifyEmptyRetrieve (some f) (Except.ok ds) =
      ((roleRejection (detectUserRole (some f))).1, "insufficient_permissions")) ∧
    classifyEmptyRetrieve (some f) (Except.ok []) = (noRelevantDocsContent, "no_documents_found") ∧
    classifyEmptyRetrieve (some f) (Except.error e) = (noRelevantDocsContent, "no_documents_found") ∧
    (roleRejection "student").2 = "lecturer" := by
  refine ⟨?_, rfl, rfl, rfl⟩
  intro h
  cases ds with
  | nil => exact absurd rfl h
  | cons d ds' => rfl

/-- C5 witness: the student (public-only) filter with a successful probe
yields the lecturer-contact rejection. -/
theorem authorization_probe_outcomes_witness :
    classifyEmptyRetrieve (some [("sensitivity", FilterValue.str "public")]) (Except.ok ["doc"]) =
      ("Informasi ini khusus Dosen. Hubungi dosen Anda jika perlu akses.",
        "insufficient_permissions") :=
  (authorization_probe_outcomes [("sensitivity", FilterValue.str "public")] ["doc"] "err").1
    (by decide)

/-- C1 counterexample: for the LowSimilarity outcome the tool content is
the low-similarity message, which does not contain the sentinel
substring, so the generate node invokes the model and the final answer
is not the fixed no-knowledge response. -/
theorem generate_low_similarity_cex :
    (generateNode demoModel [lowSimilarityMessage "0.50" "0.6"]).modelInvoked = true ∧
    (generateNode demoModel [lowSimilarityMessage "0.50" "0.6"]).answer ≠ noDocumentsResponse := by
  decide

set_option maxRecDepth 4000 in
/-- C1 amended: on the NoDocumentsFound outcome (and on empty tool
content) the generate node emits the fixed no-knowledge response without
invoking the model; on the LowSimilarity outcome, whose tool content
lacks the "No relevant documents found" sentinel, it instead invokes the
model with that content as context. -/
theorem generate_no_docs_vs_low_similarity (model : String → String) :
    generateNode model [] = { answer := noDocumentsResponse, modelInvoked := false } ∧
    generateNode model [noRelevantDocsContent] =
      { answer := noDocumentsResponse, modelInvoked := false } ∧
    generateNode model [lowSimilarityMessage "0.50" "0.6"] =
      { answer := model (lowSimilarityMessage "0.50" "0.6"), modelInvoked := true } :=
  ⟨rfl, rfl, rfl⟩

/-- C1 witness: the amended theorem at the concrete demo model. -/
theorem generate_no_docs_vs_low_similarity_witness :
    generateNode demoModel [noRelevantDocsContent] =
      { answer := noDocumentsResponse, modelInvoked := false } :=
  (generate_no_docs_vs_low_similarity demoModel).2.1

/-- C2 counterexample: on the InsufficientPermissions outcome the tool
content is the role-specific rejection message, but the generate node
invokes the model on it, and the final answer is not that message. -/
theorem generate_insufficient_permissions_cex :
    (generateNode demoModel
      [(classifyEmptyRetrieve (buildMetadataFilter (some UserRole.student))
          (Except.ok ["doc"])).1]).modelInvoked = true ∧
    (generateNode demoModel
      [(classifyEmptyRetrieve (buildMetadataFilter (some UserRole.student))
          (Except.ok ["doc"])).1]).answer ≠
      (classifyEmptyRetrieve (buildMetadataFilter (some UserRole.student))
          (Except.ok ["doc"])).1 := by
  decide

set_option maxRecDepth 4000 in
/-- C2 amended: the retrieve tool returns the role-specific rejection
message (student: lecturer-contact with required_role "lecturer";
lecturer: admin-only with required_role "admin"; the "anonymous" row of
the table: login-required with required_role "authenticated"), but the
generate node then invokes the model with that rejection message as its
context instead of emitting it directly. -/
theorem generate_insufficient_permissions_amended (model : String → String) :
    checkAuthorizationRestrictions (buildMetadataFilter (some UserRole.student)) []
        (Except.ok ["doc"]) =
      some { message := "Informasi ini khusus Dosen. Hubungi dosen Anda jika perlu akses.",
             userRole := "student", requiredRole := "lecturer" } ∧
    checkAuthorizationRestrictions (buildMetadataFilter (some UserRole.lecturer)) []
        (Except.ok ["doc"]) =
      some { message := "Informasi ini khusus Administrator sistem.",
             userRole := "lecturer", requiredRole := "admin" } ∧
    roleRejection "anonymous" =
      ("Akses ditolak. Login diperlukan untuk mengakses informasi ini.", "authenticated") ∧
    ∀ role : String, generateNode model [(roleRejection role).1] =
      { answer := model (roleRejection role).1, modelInvoked := true } := by
  refine ⟨by decide, by decide, by decide, ?_⟩
  intro role
  unfold roleRejection
  split_ifs <;> rfl

/-- C2 witness: the amended theorem at the concrete demo model. -/
theorem generate_insufficient_permissions_amended_witness :
    generateNode demoModel [(roleRejection "student").1] =
      { answer := demoModel (roleRejection "student").1, modelInvoked := true } :=
  (generate_insufficient_permissions_amended demoModel).2.2.2 "student"

/-- The FAQ loop boosts by exactly +0.15 capped at 1.0 and stops at the
first question whose overlap ratio exceeds 0.6, whichever question in
the list that is. -/
lemma faqBoostScore_of_match (q : String) (score : Rat) :
    ∀ faqs : List String, (∃ f ∈ faqs, faqMatchRatio q f > 3/5) →
      faqBoostScore q score faqs = (min (score + 3/20) 1, true) := by
  intro faqs
  induction faqs with
  | nil => rintro ⟨f, hf, _⟩; cases hf
  | cons f rest ih =>
    rintro ⟨g, hg, hr⟩
    by_cases hf : faqMatchRatio q f > 3/5
    · simp only [faqBoostScore, if_pos hf]
    · have hgr : g ∈ rest := by
        rcases List.mem_cons.mp hg with h1 | h1
        · subst h1; exact absurd hr hf
        · exact h1
      simp only [faqBoostScore, if_neg hf]
      exact ih ⟨g, hgr, hr⟩

/-- C8: FAQ-match boost — whenever some FAQ question of a document has
word-overlap ratio above 0.6 with the query, the document's similarity
score becomes exactly `min (score + 0.15) 1` and it is tagged
`faq_boosted`; the loop stops at the first matching question so at most
one boost is applied, and all other fields are unchanged. -/
theorem faq_boost (q : String) (d : SDoc)
    (h : ∃ f ∈ d.faqQuestions, faqMatchRatio q f > 3/5) :
    (faqBoostedDoc q d).similarity = min (d.similarity + 3/20) 1 ∧
    (faqBoostedDoc q d).faqBoosted = true ∧
    (faqBoostedDoc q d).pageContent = d.pageContent ∧
    (faqBoostedDoc q d).faqQuestions = d.faqQuestions := by
  unfold faqBoostedDoc
  rw [faqBoostScore_of_match q d.similarity d.faqQuestions h]
  refine ⟨rfl, rfl, rfl, rfl⟩

/-- C8 witness: the spec's own example — a full-overlap query gets the
+0.15 boost. -/
theorem faq_boost_witness :
    (faqBoostedDoc "bagaimana install vpn di windows" faqDemoDoc).similarity =
      min (faqDemoDoc.similarity + 3/20) 1 ∧
    (faqBoostedDoc "bagaimana install vpn di windows" faqDemoDoc).faqBoosted = true :=
  have h := faq_boost "bagaimana install vpn di windows" faqDemoDoc
    ⟨"bagaimana install vpn di windows", by decide, by
      have hr : faqMatchRatio "bagaimana install vpn di windows"
          "bagaimana install vpn di windows" = ((5 : Nat) : Rat) / ((5 : Nat) : Rat) := rfl
      rw [hr]; norm_num⟩
  ⟨h.1, h.2.1⟩

/-- C9 counterexample: supplied weights 0.7 and 0.3005 sum to 1.0005,
inside the 0.001 tolerance, so they are stored unnormalized and the
effective weights used for fusion do not sum to 1. -/
theorem fusion_weight_invariant_cex :
    (mkHybridSearchService (7/10) (601/2000) (3/2) (3/4)).vectorWeight +
      (mkHybridSearchService (7/10) (601/2000) (3/2) (3/4)).bm25Weight ≠ 1 := by
  have habs : |(7/10 + 601/2000 - 1 : Rat)| = 1/2000 := by
    rw [show (7/10 + 601/2000 - 1 : Rat) = 1/2000 by norm_num]
    exact abs_of_pos (by norm_num)
  have h : mkHybridSearchService (7/10) (601/2000) (3/2) (3/4) =
      { vectorWeight := 7/10, bm25Weight := 601/2000, k1 := 3/2, b := 3/4 } := by
    simp only [mkHybridSearchService, habs]
    rw [if_neg (by norm_num)]
  rw [h]
  norm_num

/-- C9 amended: the effective weights sum to 1 whenever the supplied
weights' total differs from 1 by more than the 0.001 tolerance (and is
nonzero, else Python raises ZeroDivisionError); within the tolerance the
supplied weights are stored unchanged, so their sum may differ from 1 by
up to 0.001. -/
theorem fusion_weight_invariant_amended (vw bw k1 b : Rat) :
    (1/1000 < |vw + bw - 1| → vw + bw ≠ 0 →
      (mkHybridSearchService vw bw k1 b).vectorWeight +
        (mkHybridSearchService vw bw k1 b).bm25Weight = 1) ∧
    (¬ 1/1000 < |vw + bw - 1| →
      (mkHybridSearchService vw bw k1 b).vectorWeight = vw ∧
      (mkHybridSearchService vw bw k1 b).bm25Weight = bw) := by
  constructor
  · intro h hne
    simp only [mkHybridSearchService, if_pos h]
    rw [div_add_div_same, div_self hne]
  · intro h
    constructor <;> simp only [mkHybridSearchService, if_neg h]

/-- C9 witness: weights (2, 2) are outside the tolerance and get
renormalized to sum to 1. -/
theorem fusion_weight_invariant_amended_witness :
    (mkHybridSearchService 2 2 (3/2) (3/4)).vectorWeight +
      (mkHybridSearchService 2 2 (3/2) (3/4)).bm25Weight = 1 :=
  (fusion_weight_invariant_amended 2 2 (3/2) (3/4)).1
    (by rw [show (2 + 2 - 1 : Rat) = 3 by norm_num]
        rw [abs_of_pos (by norm_num : (0:Rat) < 3)]
        norm_num)
    (by norm_num)

/-- C10: in the retrieve tool with hybrid re-ranking enabled, the
artifact list keeps its pre-reranking order (truncated only), while the
summary list is re-ordered by the hybrid stage — so on the demo input
the artifact at index 1 is the original content of document B while the
summary at index 1 is document C: the artifact is not the original
content of the aligned summary document.  This holds for every value of
`math.log`, which the demo input never evaluates. -/
theorem retrieve_artifact_summary_mismatch (logF : Rat → Rat) :
    (retrieveRankingStage (some defaultHybridService) logF "printer"
        retrieveDemoOrig retrieveDemoSummaries).1 = ["orig-A", "orig-B", "orig-C"] ∧
    ((retrieveRankingStage (some defaultHybridService) logF "printer"
        retrieveDemoOrig retrieveDemoSummaries).2.map SDoc.name) = ["A", "C", "B"] ∧
    (retrieveRankingStage (some defaultHybridService) logF "printer"
        retrieveDemoOrig retrieveDemoSummaries).1.get? 1 ≠
      ((retrieveRankingStage (some defaultHybridService) logF "printer"
          retrieveDemoOrig retrieveDemoSummaries).2.get? 1).map
        (fun d => "orig-" ++ d.name) := by
  rw [retrieve_demo_eval logF]
  refine ⟨rfl, rfl, ?_⟩
  decide

/-- C10 witness: the mismatch at a concrete stand-in for `math.log`. -/
theorem retrieve_artifact_summary_mismatch_witness :
    (retrieveRankingStage (some defaultHybridService) (fun _ => 0) "printer"
        retrieveDemoOrig retrieveDemoSummaries).1.get? 1 ≠
      ((retrieveRankingStage (some defaultHybridService) (fun _ => 0) "printer"
          retrieveDemoOrig retrieveDemoSummaries).2.get? 1).map
        (fun d => "orig-" ++ d.name) :=
  (retrieve_artifact_summary_mismatch (fun _ => 0)).2.2
